import Mathlib

/-!
A shallow embedding of the time-specification parsing and timestamp-resolution
core of the `touch` utility (src/touch.c), together with theorems checking the
natural-language specification against it.

Modelling conventions:

* C strings are `List Char`; a cursor into a string is the remaining suffix.
* The process state visible to the core (`struct touch` plus the pieces of
  process environment the code mutates or observes) is the structure `Touch`:
  the option flags, the exit status, the access/modification `timespec` pair,
  the `TZ` environment variable (only the fact that it has been forced to
  `UTC`), and the list of diagnostics printed through `touch_warn`.
* `strptime` is modelled after its POSIX/glibc semantics: numeric fields
  consume one digit, then keep consuming while the width allows, the
  accumulated value times ten does not exceed the field maximum, and the next
  character is a digit; a whitespace directive or literal skips a (possibly
  empty) run of whitespace; `%y`/`%C` feed the POSIX century-rollover rule.
* `mktime` is modelled as the civil-calendar-to-epoch conversion under the
  active timezone context: an explicit UTC context (after the code has forced
  `TZ=UTC`) or a local zone modelled as a fixed offset in seconds east of UTC,
  passed in as a parameter `off` (daylight-saving detection is outside the
  model).  Its failure value is `-1`, exactly the value the code tests.
* `strtod` on the fractional literal and the following `double` multiplication
  are modelled exactly: correctly rounded IEEE binary64 (round to nearest,
  ties to even) represented as dyadic numbers with integer arithmetic.  The
  literal `"."` with no digits performs no conversion, returns 0.0 with the
  end pointer at the start of the string, and leaves `errno` untouched.
-/

/-- Diagnostics issued through `touch_warn` (identified by format string). -/
inductive Err where
  /-- "invalid date_time" (length or separator validation of `-d`). -/
  | invalidDateTime
  /-- "failed to parse date_time" (strptime failure or trailing garbage). -/
  | failedParseDateTime
  /-- "failed to parse frac" (strtod reported an error). -/
  | failedParseFrac
  /-- "invalid time string" (`-t` validation or strptime failure). -/
  | invalidTimeString
  /-- "mktime" (epoch resolution returned `(time_t)-1`). -/
  | mktimeErr
  /-- "stat reference file" (`-r` file could not be stat-ed). -/
  | statRefFile
  /-- "file... argument required". -/
  | fileArgRequired
  /-- "-r, -t, and -d mutually exclusive". -/
  | mutuallyExclusive
  deriving DecidableEq, Repr

/-- A `struct timespec`: seconds and nanoseconds (or a sentinel). -/
structure Timespec where
  tv_sec : Int
  tv_nsec : Int
  deriving DecidableEq, Repr

/-- The option flags of `struct touch` (bits of `touch.flags`). -/
structure Flags where
  /-- `TOUCH_FLAG_ACCESS_TIME` (`-a`). -/
  accessTime : Bool
  /-- `TOUCH_FLAG_NO_CREATE` (`-c`). -/
  noCreate : Bool
  /-- `TOUCH_FLAG_MOD_TIME` (`-m`). -/
  modTime : Bool
  /-- `TOUCH_FLAG_REF_FILE` (`-r`). -/
  refFile : Bool
  /-- `TOUCH_FLAG_TIME` (`-t`). -/
  timeFlag : Bool
  /-- `TOUCH_FLAG_DATE_TIME` (`-d`). -/
  dateTime : Bool
  deriving DecidableEq, Repr

/-- `struct touch` together with the process environment the code touches. -/
structure Touch where
  flags : Flags
  status_code : Nat
  /-- `time_am[0]`: the access time to set. -/
  time_am0 : Timespec
  /-- `time_am[1]`: the modification time to set. -/
  time_am1 : Timespec
  /-- Whether the code has executed `setenv("TZ", "UTC", 1)`. -/
  tzUtc : Bool
  /-- Diagnostics printed so far, in order. -/
  errs : List Err
  deriving DecidableEq, Repr

/-- The zero-initialised state produced by `memset(&touch, 0, sizeof(touch))`,
in a process whose `TZ` has not been forced to UTC. -/
def initTouch : Touch :=
  { flags := ⟨false, false, false, false, false, false⟩
    status_code := 0
    time_am0 := ⟨0, 0⟩
    time_am1 := ⟨0, 0⟩
    tzUtc := false
    errs := [] }

/-- `touch_warn`: record a diagnostic and set the failure exit status. -/
def touch_warn (t : Touch) (e : Err) : Touch :=
  { t with status_code := 1, errs := t.errs ++ [e] }

/-- `struct tm` (the fields the code uses). -/
structure Tm where
  tm_sec : Nat
  tm_min : Nat
  tm_hour : Nat
  tm_mday : Nat
  tm_mon : Nat
  tm_year : Int
  deriving DecidableEq, Repr

/-- A zeroed `struct tm` (`memset` / `= {0}`). -/
def tmZero : Tm := ⟨0, 0, 0, 0, 0, 0⟩

/-- `isspace` in the C locale. -/
def cIsSpace (c : Char) : Bool :=
  c == ' ' || c == '\t' || c == '\n' || c == '\x0b' || c == '\x0c' || c == '\r'

/-- The digit-consuming loop of `strptime`'s numeric conversions (glibc
`get_number` after the first digit): with `n` more digits allowed, keep
consuming while the accumulated value times ten does not exceed `hi` and the
next character is a digit. -/
def gnLoop (hi : Nat) : Nat → Nat → List Char → Nat × List Char
  | 0, val, s => (val, s)
  | _ + 1, val, [] => (val, [])
  | n + 1, val, c :: cs =>
    if val * 10 ≤ hi ∧ c.isDigit then gnLoop hi n (val * 10 + (c.toNat - 48)) cs
    else (val, c :: cs)

/-- A numeric conversion of `strptime` (glibc `get_number`): skip leading
whitespace, require a first digit, consume up to `w` digits, and require the
result to lie in `[lo, hi]`. -/
def get_number (lo hi w : Nat) (s : List Char) : Option (Nat × List Char) :=
  match s.dropWhile cIsSpace with
  | [] => none
  | c :: cs =>
    if c.isDigit then
      let r := gnLoop hi (w - 1) (c.toNat - 48) cs
      if lo ≤ r.1 ∧ r.1 ≤ hi then some r else none
    else none

/-- The `strptime` directives used by the two format strings the code builds
(`%T` is expanded into `%H:%M:%S`). -/
inductive Conv where
  /-- A literal character of the format string. -/
  | litc (ch : Char)
  /-- `%C`: century, `[0, 99]`. -/
  | convC
  /-- `%y`: 2-digit year, `[0, 99]`, century-rollover applied at the end. -/
  | convy
  /-- `%Y`: year including century, `[0, 9999]`. -/
  | convY
  /-- `%m`: month `[1, 12]`, stored 0-based. -/
  | convm
  /-- `%d`: day of month `[1, 31]`. -/
  | convd
  /-- `%H`: hour `[0, 23]`. -/
  | convH
  /-- `%M`: minute `[0, 59]`. -/
  | convM
  /-- `%S`: second `[0, 61]`. -/
  | convS
  deriving DecidableEq, Repr

/-- Intermediate `strptime` state: the `struct tm` being filled plus the raw
`%y`/`%C` values, combined by `strptime_finalize`. -/
structure PState where
  tm : Tm
  yy : Option Nat
  century : Option Nat
  deriving DecidableEq, Repr

/-- Run a list of `strptime` directives over the input. -/
def strptime_run : List Conv → PState → List Char → Option (PState × List Char)
  | [], st, s => some (st, s)
  | .litc ch :: fs, st, s =>
    if cIsSpace ch then strptime_run fs st (s.dropWhile cIsSpace)
    else
      match s with
      | [] => none
      | c :: cs => if c = ch then strptime_run fs st cs else none
  | .convC :: fs, st, s =>
    match get_number 0 99 2 s with
    | none => none
    | some (v, s') => strptime_run fs { st with century := some v } s'
  | .convy :: fs, st, s =>
    match get_number 0 99 2 s with
    | none => none
    | some (v, s') => strptime_run fs { st with yy := some v } s'
  | .convY :: fs, st, s =>
    match get_number 0 9999 4 s with
    | none => none
    | some (v, s') =>
      strptime_run fs { st with tm := { st.tm with tm_year := (v : Int) - 1900 } } s'
  | .convm :: fs, st, s =>
    match get_number 1 12 2 s with
    | none => none
    | some (v, s') => strptime_run fs { st with tm := { st.tm with tm_mon := v - 1 } } s'
  | .convd :: fs, st, s =>
    match get_number 1 31 2 s with
    | none => none
    | some (v, s') => strptime_run fs { st with tm := { st.tm with tm_mday := v } } s'
  | .convH :: fs, st, s =>
    match get_number 0 23 2 s with
    | none => none
    | some (v, s') => strptime_run fs { st with tm := { st.tm with tm_hour := v } } s'
  | .convM :: fs, st, s =>
    match get_number 0 59 2 s with
    | none => none
    | some (v, s') => strptime_run fs { st with tm := { st.tm with tm_min := v } } s'
  | .convS :: fs, st, s =>
    match get_number 0 61 2 s with
    | none => none
    | some (v, s') => strptime_run fs { st with tm := { st.tm with tm_sec := v } } s'

/-- The end-of-parse fixup of `strptime`: combine `%C`/`%y` into `tm_year`
using the POSIX century-rollover rule when only `%y` was given. -/
def strptime_finalize (st : PState) : Tm :=
  match st.century, st.yy with
  | some cc, some y => { st.tm with tm_year := ((y % 100 : Nat) : Int) + ((cc : Int) - 19) * 100 }
  | some cc, none => { st.tm with tm_year := ((cc : Int) - 19) * 100 }
  | none, some y => { st.tm with tm_year := if y ≤ 68 then ((y : Int) + 100) else (y : Int) }
  | none, none => st.tm

/-- `strptime(s, fmt, &tm)` on a zeroed `tm`: returns the filled `tm` and the
remaining (unparsed) suffix of the input. -/
def strptime (fmt : List Conv) (s : List Char) : Option (Tm × List Char) :=
  match strptime_run fmt ⟨tmZero, none, none⟩ s with
  | none => none
  | some (st, rest) => some (strptime_finalize st, rest)

/-- Days from 1970-01-01 to the civil date `y-m-d` (proleptic Gregorian),
the days-from-civil algorithm used by C libraries inside `mktime`. -/
def daysFromCivil (y m d : Int) : Int :=
  let y2 := if m ≤ 2 then y - 1 else y
  let era := Int.fdiv y2 400
  let yoe := y2 - era * 400
  let mp := if m ≤ 2 then m + 9 else m - 3
  let doy := Int.fdiv (153 * mp + 2) 5 + d - 1
  let doe := yoe * 365 + Int.fdiv yoe 4 - Int.fdiv yoe 100 + doy
  era * 146097 + doe - 719468

/-- `mktime(&tm)` under the active timezone context: UTC when the code has
executed `setenv("TZ", "UTC", 1)`, otherwise the local zone modelled as the
fixed offset `off` (seconds east of UTC).  With a 64-bit `time_t` every date
`strptime` can produce resolves, so the model is total; the code compares the
result against the failure value `(time_t)-1`. -/
def mktime (tm : Tm) (tzUtc : Bool) (off : Int) : Int :=
  daysFromCivil (tm.tm_year + 1900) ((tm.tm_mon : Int) + 1) (tm.tm_mday : Int) * 86400
    + (tm.tm_hour : Int) * 3600 + (tm.tm_min : Int) * 60 + (tm.tm_sec : Int)
    - (if tzUtc then 0 else off)

/-- Round `a / b` (with `b > 0`) to the nearest integer, ties to even. -/
def rne (a b : Nat) : Nat :=
  let q := a / b
  let r := a % b
  if b < 2 * r then q + 1
  else if 2 * r < b then q
  else if q % 2 = 0 then q else q + 1

/-- Smallest `s` (searched with fuel) such that `2 ^ 52 * den ≤ num * 2 ^ s`:
scaling exponent used to round `num / den` to a 53-bit significand. -/
def dblShift : Nat → Nat → Nat → Nat
  | 0, _, _ => 0
  | fuel + 1, num, den =>
    if 2 ^ 52 * den ≤ num then 0 else dblShift fuel (2 * num) den + 1

/-- The IEEE binary64 nearest value of the positive rational `num / den`,
as a dyadic pair `(m, e)` with value `m * 2 ^ e` (no overflow or subnormal
handling: the values arising here are far inside the normal range). -/
def dblOfRat (num den : Nat) : Nat × Int :=
  if num = 0 then (0, 0)
  else
    let s := dblShift 4096 num den
    (rne (num * 2 ^ s) den, -(s : Int))

/-- Number of low bits to drop (searched with fuel) so that a significand
fits below `2 ^ 53`. -/
def dblNorm : Nat → Nat → Nat
  | 0, _ => 0
  | fuel + 1, m => if m < 2 ^ 53 then 0 else dblNorm fuel (m / 2) + 1

/-- IEEE binary64 multiplication of the dyadic `(m, e)` by the (exactly
representable) constant `1000000000`, rounding the product to 53 bits. -/
def dblMulNsec (m : Nat) (e : Int) : Nat × Int :=
  let p := m * 1000000000
  let t := dblNorm 4096 p
  (rne p (2 ^ t), e + t)

/-- The C cast `(long)` applied to the nonnegative dyadic `(m, e)`:
truncation toward zero. -/
def dblTruncToNat (m : Nat) (e : Int) : Nat :=
  if 0 ≤ e then m * 2 ^ e.toNat else m / 2 ^ (-e).toNat

/-- `(long)(strtod(frac_str, ...) * 1000000000)` for a fractional literal
`"."` followed by the digit string of value `v` and length `k ≥ 1`:
correctly rounded decimal-to-binary64 conversion, binary64 multiplication by
the nanosecond scale, then truncation toward zero. -/
def fracNsec (v k : Nat) : Nat :=
  let x := dblOfRat v (10 ^ k)
  let y := dblMulNsec x.1 x.2
  dblTruncToNat y.1 y.2

/-- `MAX_FRAC_CHAR_LEN = (size_t)(log10(LONG_MAX) + 1)`: the number of decimal
digits of `LONG_MAX = 2 ^ 63 - 1`, namely 19 (see
`maxFracCharLen_digits_of_long_max`). -/
def MAX_FRAC_CHAR_LEN : Nat := 19

/-- `MAX_FRAC_CHAR_LEN` is the decimal digit count of `LONG_MAX`. -/
theorem maxFracCharLen_digits_of_long_max :
    10 ^ (MAX_FRAC_CHAR_LEN - 1) ≤ 2 ^ 63 - 1 ∧ 2 ^ 63 - 1 < 10 ^ MAX_FRAC_CHAR_LEN := by
  decide

/-- The digit-copying loop of `touch_parse_frac`:
`for(i = 1; isdigit((*time_parse)[i-1]) && i < MAX_FRAC_CHAR_LEN; i++)`.
Called with `i = 1`, it copies at most `MAX_FRAC_CHAR_LEN - 1` digits. -/
def fracTake (i : Nat) : List Char → List Char
  | [] => []
  | c :: cs =>
    if c.isDigit ∧ i < MAX_FRAC_CHAR_LEN then c :: fracTake (i + 1) cs else []

/-- Numeric value of a digit string (the value `strtod` sees after `"."`). -/
def natOfDigits (ds : List Char) : Nat :=
  ds.foldl (fun a c => a * 10 + (c.toNat - 48)) 0

/-- `touch_parse_frac`: if the cursor is at `.` or `,`, build the literal
`"."` followed by at most `MAX_FRAC_CHAR_LEN - 1` digits, convert it with
`strtod`, store the nanoseconds into both `timespec` entries, and advance the
cursor by `ep - frac_str - 1` characters past the separator.  When the
literal has no digits, `strtod` performs no conversion: it returns `0.0`
with `ep = frac_str` and leaves `errno` at 0, so the code stores 0
nanoseconds and moves the cursor *back* onto the separator.  (The `malloc`
failure and injected-`strtod`-failure paths of the C code are not modelled:
with a real C library the conversion of a dot-digit literal of at most 18
digits never sets `errno`.)  Returns the new state and the new cursor. -/
def touch_parse_frac (t : Touch) (cur : List Char) : Touch × List Char :=
  match cur with
  | [] => (t, cur)
  | c :: rest =>
    if c = '.' ∨ c = ',' then
      let ds := fracTake 1 rest
      match ds with
      | [] =>
        ({ t with time_am0.tv_nsec := 0, time_am1.tv_nsec := 0 }, cur)
      | _ =>
        let ns : Int := (fracNsec (natOfDigits ds) ds.length : Nat)
        ({ t with time_am0.tv_nsec := ns, time_am1.tv_nsec := ns }, rest.drop ds.length)
    else (t, cur)

/-- `MIN_DATE_TIME`: minimum length of a `-d` argument
(`YYYY-MM-DDThh:mm:SS`). -/
def MIN_DATE_TIME : Nat := 19

/-- `MAX_DATE_TIME = 20 + MAX_FRAC_CHAR_LEN + 1` (exclusive upper bound on
the length of a `-d` argument). -/
def MAX_DATE_TIME : Nat := 20 + MAX_FRAC_CHAR_LEN + 1

/-- Position of the `T`/space separator in a `-d` argument. -/
def DATE_TIME_T_POS : Nat := 10

/-- The initial validation of `touch_parse_date_time`: length bounds and the
separator character at offset 10. -/
def touch_date_time_precheck_bad (s : List Char) : Bool :=
  decide (s.length < MIN_DATE_TIME) || decide (MAX_DATE_TIME ≤ s.length) ||
    (decide (s.getD DATE_TIME_T_POS '\x00' ≠ 'T') &&
     decide (s.getD DATE_TIME_T_POS '\x00' ≠ ' '))

/-- The format string `"%Y-%m-%d %T"` with `fmt[8]` overwritten by the
separator found at offset 10 of the input (`%T` = `%H:%M:%S`). -/
def date_time_fmt (sep : Char) : List Conv :=
  [Conv.convY, Conv.litc '-', Conv.convm, Conv.litc '-', Conv.convd, Conv.litc sep,
   Conv.convH, Conv.litc ':', Conv.convM, Conv.litc ':', Conv.convS]

/-- Lines 294–311 of `touch_parse_date_time`, after `strptime` succeeded:
parse the fractional part, handle an optional `Z` (forcing `TZ=UTC`), require
the rest to be empty, resolve the epoch with `mktime` under the timezone
context active at that point, and commit the seconds to both entries
(the commit is unconditional, even when `mktime` returned `-1`). -/
def touch_date_time_tail (t : Touch) (tm : Tm) (cur : List Char) (off : Int) : Touch :=
  let fr := touch_parse_frac t cur
  let t1 := fr.1
  let zr : Touch × List Char :=
    match fr.2 with
    | 'Z' :: r => ({ t1 with tzUtc := true }, r)
    | other => (t1, other)
  let t2 := zr.1
  if t2.status_code ≠ 0 ∨ zr.2 ≠ [] then touch_warn t2 Err.failedParseDateTime
  else
    let tv_sec := mktime tm t2.tzUtc off
    let t3 := if tv_sec = -1 then touch_warn t2 Err.mktimeErr else t2
    { t3 with time_am0.tv_sec := tv_sec, time_am1.tv_sec := tv_sec }

/-- `touch_parse_date_time`: parse a `-d date_time` argument of the form
`YYYY-MM-DD{T| }hh:mm:SS[[.|,]frac][Z]` into both `timespec` entries. -/
def touch_parse_date_time (t : Touch) (s : List Char) (off : Int) : Touch :=
  if touch_date_time_precheck_bad s then touch_warn t Err.invalidDateTime
  else
    match strptime (date_time_fmt (s.getD DATE_TIME_T_POS '\x00')) s with
    | none => touch_warn t Err.failedParseDateTime
    | some (tm, rest) => touch_date_time_tail t tm rest off

/-- `MIN_TIME_LEN` for a `-t` argument (`MMDDhhmm`). -/
def MIN_TIME_LEN : Nat := 8

/-- `MAX_TIME_LEN` for a `-t` argument (`CCYYMMDDhhmm.SS`). -/
def MAX_TIME_LEN : Nat := 15

/-- The format string `touch_parse_time` builds from the base length
(length minus 3 when a dot is present): `%C` for base 12, `%y` for base at
least 10, always `%m%d%H%M`, and `.%S` when a dot is present. -/
def time_fmt (base : Nat) (hasDot : Bool) : List Conv :=
  (if base = 12 then [Conv.convC] else []) ++
  (if 10 ≤ base then [Conv.convy] else []) ++
  [Conv.convm, Conv.convd, Conv.convH, Conv.convM] ++
  (if hasDot then [Conv.litc '.', Conv.convS] else [])

/-- `touch_parse_time`: parse a `-t time` argument of the form
`[[CC]YY]MMDDhhmm[.SS]` into both `timespec` entries.  `strptime` must
consume the whole argument; the epoch is resolved with `mktime` under the
currently active timezone context and committed unconditionally. -/
def touch_parse_time (t : Touch) (s : List Char) (off : Int) : Touch :=
  if s.length < MIN_TIME_LEN ∨ MAX_TIME_LEN < s.length then
    touch_warn t Err.invalidTimeString
  else
    let hasDot := s.any (· = '.')
    let base := if hasDot then s.length - 3 else s.length
    match strptime (time_fmt base hasDot) s with
    | none => touch_warn t Err.invalidTimeString
    | some (tm, rest) =>
      if rest ≠ [] then touch_warn t Err.invalidTimeString
      else
        let tv_sec := mktime tm t.tzUtc off
        let t3 := if tv_sec = -1 then touch_warn t Err.mktimeErr else t
        { t3 with time_am0.tv_sec := tv_sec, time_am1.tv_sec := tv_sec }

/-- `touch_get_time_ref_file`: copy the reference file's access and
modification timestamps, or fail when the file cannot be stat-ed.  The
filesystem is external: the `stat` outcome is passed in. -/
def touch_get_time_ref_file (t : Touch) (res : Option (Timespec × Timespec)) : Touch :=
  match res with
  | none => touch_warn t Err.statRefFile
  | some (atim, mtim) => { t with time_am0 := atim, time_am1 := mtim }

/-- `touch_ensure_args_mutually_exclusive`: the restriction of the flags to
`{-r, -t, -d}` must be empty or a singleton. -/
def touch_ensure_args_mutually_exclusive (f : Flags) : Bool :=
  let fe := (f.refFile, f.timeFlag, f.dateTime)
  if fe ≠ (false, false, false) ∧ fe ≠ (true, false, false) ∧
     fe ≠ (false, true, false) ∧ fe ≠ (false, false, true) then
    false
  else
    true

/-- `UTIME_NOW` (glibc): nanosecond sentinel "set to current time". -/
def UTIME_NOW : Int := 2 ^ 30 - 1

/-- `UTIME_OMIT` (glibc): nanosecond sentinel "leave unchanged". -/
def UTIME_OMIT : Int := 2 ^ 30 - 2

/-- Lines 540–549 of `touch_main`: restrict the pair to the requested
timestamps (`apply_policy` in the specification). -/
def touch_policy (f : Flags) (p : Timespec × Timespec) : Timespec × Timespec :=
  if ¬ f.accessTime ∧ ¬ f.modTime then p
  else if ¬ f.accessTime then ({ p.1 with tv_nsec := UTIME_OMIT }, p.2)
  else if ¬ f.modTime then (p.1, { p.2 with tv_nsec := UTIME_OMIT })
  else p

/-- One command-line option as dispatched by the `getopt` loop of
`touch_main` (option parsing itself is the external CLI shell).  A `-r`
option carries the outcome of the external `stat` call. -/
inductive Arg where
  | optA
  | optC
  | optM
  | optD (s : List Char)
  | optR (res : Option (Timespec × Timespec))
  | optT (s : List Char)
  /-- An unrecognized option: `getopt` returns `?` and the `default` case
  sets the failure status without a message. -/
  | optBad
  deriving DecidableEq

/-- One iteration of the `getopt` switch in `touch_main`. -/
def touch_process_arg (off : Int) (t : Touch) (a : Arg) : Touch :=
  match a with
  | .optA => { t with flags.accessTime := true }
  | .optC => { t with flags.noCreate := true }
  | .optM => { t with flags.modTime := true }
  | .optD s =>
    let t1 := touch_parse_date_time t s off
    { t1 with flags.dateTime := true }
  | .optR res =>
    let t1 := touch_get_time_ref_file t res
    { t1 with flags.refFile := true }
  | .optT s =>
    let t1 := touch_parse_time t s off
    { t1 with flags.timeFlag := true }
  | .optBad => { t with status_code := 1 }

/-- Lines 534–552 of `touch_main`: substitute the current-time sentinel when
`time_am[0].tv_sec == 0`, then apply the access/modify policy.  The resulting
state holds the pair passed unchanged to `touch_path` for every target. -/
def touch_apply (t : Touch) : Touch :=
  let t1 :=
    if t.time_am0.tv_sec = 0 then
      { t with time_am0.tv_nsec := UTIME_NOW, time_am1.tv_nsec := UTIME_NOW }
    else t
  let p := touch_policy t1.flags (t1.time_am0, t1.time_am1)
  { t1 with time_am0 := p.1, time_am1 := p.2 }

/-- `touch_main` up to (and excluding) the per-file `touch_path` loop: process
the options, check for a file operand and for mutual exclusivity, and prepare
the final pair.  Returns the final state together with whether the
`touch_path` loop runs (with `nfiles ≥ 1` files, using the state's pair). -/
def touch_main (args : List Arg) (nfiles : Nat) (off : Int) : Touch × Bool :=
  let t := args.foldl (touch_process_arg off) initTouch
  if nfiles < 1 then (touch_warn t Err.fileArgRequired, false)
  else if touch_ensure_args_mutually_exclusive t.flags = false then
    (touch_warn t Err.mutuallyExclusive, false)
  else if t.status_code = 0 then (touch_apply t, true)
  else (t, false)

/-- `touch_apply` never changes the exit status. -/
theorem touch_apply_status (t : Touch) : (touch_apply t).status_code = t.status_code := by
  simp only [touch_apply]
  split <;> rfl

/-- `fracTake` copies nothing when the input starts with a non-digit. -/
theorem fracTake_eq_nil (i : Nat) (r : List Char)
    (h : ∀ x ∈ r.take 1, x.isDigit = false) : fracTake i r = [] := by
  cases r with
  | nil => rfl
  | cons c cs =>
    have hc : c.isDigit = false := h c (by simp)
    simp [fracTake, hc]

/-- C1: the claim states that the current-time sentinel is substituted exactly
when no time source was selected, and that a successfully resolved pair is
kept even when its epoch-seconds value is 0.  The code instead tests
`time_am[0].tv_sec == 0`: for `-d "1970-01-01T00:00:00Z"` the parse succeeds
with seconds 0, yet `touch_main` overwrites both nanosecond fields with
`UTIME_NOW`, contradicting the claim (and the code's own comment "Use current
time if the user did not specify a time"). -/
theorem claim_c1_epoch_zero_gets_now_sentinel :
    ((touch_parse_date_time initTouch ("1970-01-01T00:00:00Z".toList) 0).status_code = 0) ∧
    ((touch_parse_date_time initTouch ("1970-01-01T00:00:00Z".toList) 0).time_am0.tv_sec = 0) ∧
    ((touch_main [Arg.optD ("1970-01-01T00:00:00Z".toList)] 1 0).1.flags.dateTime = true) ∧
    ((touch_main [Arg.optD ("1970-01-01T00:00:00Z".toList)] 1 0).1.status_code = 0) ∧
    ((touch_main [Arg.optD ("1970-01-01T00:00:00Z".toList)] 1 0).2 = true) ∧
    ((touch_main [Arg.optD ("1970-01-01T00:00:00Z".toList)] 1 0).1.time_am0.tv_nsec
       = UTIME_NOW) ∧
    ((touch_main [Arg.optD ("1970-01-01T00:00:00Z".toList)] 1 0).1.time_am1.tv_nsec
       = UTIME_NOW) := by
  decide

/-- C2 counterexample: on the malformed specification
`"2007-11-12T10:15:30,002X"` the parse fails (trailing garbage), yet the
nanosecond fields of the pair have been changed from their pre-parse value 0
to 2000000 — the fractional part was committed before the trailing-garbage
check, refuting the claim that the fields are left unchanged. -/
theorem claim_c2_counterexample_frac_committed_on_failure :
    (initTouch.time_am0.tv_nsec = 0 ∧ initTouch.time_am1.tv_nsec = 0) ∧
    ((touch_parse_date_time initTouch ("2007-11-12T10:15:30,002X".toList) 0).status_code
       = 1) ∧
    ((touch_parse_date_time initTouch ("2007-11-12T10:15:30,002X".toList) 0).errs
       = [Err.failedParseDateTime]) ∧
    ((touch_parse_date_time initTouch ("2007-11-12T10:15:30,002X".toList) 0).time_am0.tv_nsec
       = 2000000) ∧
    ((touch_parse_date_time initTouch ("2007-11-12T10:15:30,002X".toList) 0).time_am1.tv_nsec
       = 2000000) := by
  decide

/-- C2 amended: a malformed specification is never applied — every parse
failure sets the failure status, and `touch_main` runs the per-file
application step only when the status is still zero (the in-memory pair's
fields, however, are not always left unchanged by a failed parse). -/
theorem claim_c2_amended_failure_blocks_apply :
    ∀ (args : List Arg) (nfiles : Nat) (off : Int),
      (touch_main args nfiles off).2 = true →
      (touch_main args nfiles off).1.status_code = 0 := by
  intro args nfiles off h
  unfold touch_main at h ⊢
  by_cases h1 : nfiles < 1
  · simp [h1] at h
  · by_cases h2 : touch_ensure_args_mutually_exclusive
        ((args.foldl (touch_process_arg off) initTouch).flags) = false
    · simp [h1, h2] at h
    · by_cases h3 : (args.foldl (touch_process_arg off) initTouch).status_code = 0
      · simp [h1, h2, h3, touch_apply_status]
      · simp [h1, h2, h3] at h

/-- Witness for the amended C2 at a concrete invocation. -/
theorem claim_c2_amended_witness :
    (touch_main [] 1 0).1.status_code = 0 :=
  claim_c2_amended_failure_blocks_apply [] 1 0 (by decide)

/-- C3 counterexample: on `"2007-11-12T10:15:30."` (fractional separator with
zero digits) the only diagnostic is "failed to parse date_time" (the
InvalidFormat-style error of the date-time parser); the
NumericConversionError diagnostic "failed to parse frac" is not issued,
refuting the claim that the bare-`"."` conversion failure is reported as
NumericConversionError. -/
theorem claim_c3_counterexample_no_numeric_error :
    ((touch_parse_date_time initTouch ("2007-11-12T10:15:30.".toList) 0).errs
       = [Err.failedParseDateTime]) ∧
    (Err.failedParseFrac ∉
       (touch_parse_date_time initTouch ("2007-11-12T10:15:30.".toList) 0).errs) ∧
    ((touch_parse_date_time initTouch ("2007-11-12T10:15:30.".toList) 0).status_code
       = 1) := by
  decide

/-- C3 amended: on a fractional separator followed by zero digits, `strtod`
performs no conversion and reports no error; `touch_parse_frac` commits zero
nanoseconds and moves the cursor back onto the separator, and the iso parse
then fails with the InvalidFormat-style "failed to parse date_time" because
the remaining string is non-empty. -/
theorem claim_c3_amended_bare_separator_invalid_format :
    (∀ (t : Touch) (c : Char) (r : List Char),
       (c = '.' ∨ c = ',') → (∀ x ∈ r.take 1, x.isDigit = false) →
       touch_parse_frac t (c :: r) =
         ({ t with time_am0.tv_nsec := 0, time_am1.tv_nsec := 0 }, c :: r)) ∧
    ((touch_parse_date_time initTouch ("2007-11-12T10:15:30.".toList) 0) =
       touch_warn { initTouch with time_am0.tv_nsec := 0, time_am1.tv_nsec := 0 }
         Err.failedParseDateTime) := by
  refine ⟨?_, by decide⟩
  intro t c r hc hr
  simp only [touch_parse_frac]
  rw [if_pos hc, fracTake_eq_nil 1 r hr]

/-- Witness for the amended C3 at a concrete separator. -/
theorem claim_c3_amended_witness :
    touch_parse_frac initTouch ['.'] =
      ({ initTouch with time_am0.tv_nsec := 0, time_am1.tv_nsec := 0 }, ['.']) :=
  claim_c3_amended_bare_separator_invalid_format.1 initTouch '.' [] (Or.inl rfl)
    (by decide)

/-- C4 counterexample: with both `-d "2007-11-12T10:15:30Z"` and
`-t "01010000"` selected, both resolvers run during option processing before
the exclusivity check: the iso resolver's process-wide side effect
(`TZ=UTC`) has happened and the numeric resolver has overwritten the pair's
seconds (resolved under the already-mutated UTC context), even though the
exclusivity check then fails — refuting the claim that no resolver executes
and no resolver side effect occurs when more than one source is selected. -/
theorem claim_c4_counterexample_resolvers_run :
    (touch_ensure_args_mutually_exclusive
        ((touch_main [Arg.optD ("2007-11-12T10:15:30Z".toList),
                      Arg.optT ("01010000".toList)] 1 0).1.flags) = false) ∧
    ((touch_main [Arg.optD ("2007-11-12T10:15:30Z".toList),
                  Arg.optT ("01010000".toList)] 1 0).1.tzUtc = true) ∧
    ((touch_main [Arg.optD ("2007-11-12T10:15:30Z".toList),
                  Arg.optT ("01010000".toList)] 1 0).1.time_am0.tv_sec
       = mktime ⟨0, 0, 0, 1, 0, 0⟩ true 0) ∧
    ((touch_main [Arg.optD ("2007-11-12T10:15:30Z".toList),
                  Arg.optT ("01010000".toList)] 1 0).1.errs = [Err.mutuallyExclusive]) ∧
    ((touch_main [Arg.optD ("2007-11-12T10:15:30Z".toList),
                  Arg.optT ("01010000".toList)] 1 0).2 = false) := by
  decide

/-- C4 amended: the mutual-exclusivity invariant is enforced after option
processing — the selected resolvers have already run, side effects included —
but before any file is touched: when the processed flags select more than one
source, the per-file application step never runs. -/
theorem claim_c4_amended_checked_before_apply :
    ∀ (args : List Arg) (nfiles : Nat) (off : Int),
      touch_ensure_args_mutually_exclusive
          ((args.foldl (touch_process_arg off) initTouch).flags) = false →
      (touch_main args nfiles off).2 = false := by
  intro args nfiles off h
  unfold touch_main
  by_cases h1 : nfiles < 1
  · simp [h1]
  · simp [h1, h]

/-- Witness for the amended C4 at a concrete invocation. -/
theorem claim_c4_amended_witness :
    (touch_main [Arg.optT ['x'], Arg.optD ['x']] 1 0).2 = false :=
  claim_c4_amended_checked_before_apply [Arg.optT ['x'], Arg.optD ['x']] 1 0 (by decide)

/-- C5: the policy step leaves the pair unchanged when neither or both of
access/modify are requested; with only access requested it replaces the
modify entry's nanoseconds with `UTIME_OMIT`, leaving the access entry as
resolved; with only modify requested it replaces the access entry's
nanoseconds with `UTIME_OMIT`. -/
theorem claim_c5_policy_sentinel_substitution :
    ∀ (p : Timespec × Timespec) (nc rf tf df : Bool),
      touch_policy ⟨false, nc, false, rf, tf, df⟩ p = p ∧
      touch_policy ⟨true, nc, false, rf, tf, df⟩ p
        = (p.1, { p.2 with tv_nsec := UTIME_OMIT }) ∧
      touch_policy ⟨false, nc, true, rf, tf, df⟩ p
        = ({ p.1 with tv_nsec := UTIME_OMIT }, p.2) ∧
      touch_policy ⟨true, nc, true, rf, tf, df⟩ p = p := by
  intro p nc rf tf df
  refine ⟨by simp [touch_policy], by simp [touch_policy], by simp [touch_policy],
    by simp [touch_policy]⟩

/-- C7: the claim states that every `-t` input whose base length is not 8, 10
or 12 is rejected.  Length bounds and the 9-digit example do hold, but the
base-length restriction is not actually checked: `"0711121.15"` has base
length 7, yet `strptime` matches `%M` against the single digit before the
dot and the code accepts it, resolving 1900-07-11 12:01:15 — contradicting
the documented format `[[CC]YY]MMDDhhmm[.SS]`. -/
theorem claim_c7_base_length_seven_accepted :
    (("0711121.15".toList).length = 10) ∧
    (("0711121.15".toList).any (· = '.') = true) ∧
    (("0711121.15".toList).length - 3 = 7) ∧
    ((touch_parse_time initTouch ("0711121.15".toList) 0).status_code = 0) ∧
    ((touch_parse_time initTouch ("0711121.15".toList) 0).errs = []) ∧
    ((touch_parse_time initTouch ("0711121.15".toList) 0).time_am0.tv_sec
       = mktime ⟨15, 1, 12, 11, 6, 0⟩ false 0) ∧
    ((touch_parse_time initTouch ("071112101".toList) 0)
       = touch_warn initTouch Err.invalidTimeString) := by
  decide

/-- C6: the initial validation of the iso parser rejects with InvalidFormat
exactly the inputs whose length is below 19 or above `20 + MAX_FRAC_CHAR_LEN`
(with `MAX_FRAC_CHAR_LEN` the decimal digit count of `LONG_MAX`, see
`maxFracCharLen_digits_of_long_max`) or whose character at offset 10 is
neither `T` nor space; in particular the 18-character
`"2007-11-12T10:15:3"` is rejected. -/
theorem claim_c6_iso_length_separator_validation :
    (∀ (t : Touch) (s : List Char) (off : Int),
       touch_date_time_precheck_bad s = true →
       touch_parse_date_time t s off = touch_warn t Err.invalidDateTime) ∧
    (∀ s : List Char,
       touch_date_time_precheck_bad s = true ↔
         (s.length < 19 ∨ 20 + MAX_FRAC_CHAR_LEN < s.length ∨
          (s.getD 10 '\x00' ≠ 'T' ∧ s.getD 10 '\x00' ≠ ' '))) ∧
    (("2007-11-12T10:15:3".toList).length = 18) ∧
    ((touch_parse_date_time initTouch ("2007-11-12T10:15:3".toList) 0)
       = touch_warn initTouch Err.invalidDateTime) := by
  refine ⟨?_, ?_, by decide, by decide⟩
  · intro t s off h
    unfold touch_parse_date_time
    simp [h]
  · intro s
    simp only [touch_date_time_precheck_bad, MIN_DATE_TIME, MAX_DATE_TIME,
      MAX_FRAC_CHAR_LEN, DATE_TIME_T_POS, Bool.or_eq_true, Bool.and_eq_true,
      decide_eq_true_eq]
    constructor
    · rintro ((h | h) | h)
      · exact Or.inl h
      · exact Or.inr (Or.inl (by omega))
      · exact Or.inr (Or.inr h)
    · rintro (h | h | h)
      · exact Or.inl (Or.inl h)
      · exact Or.inl (Or.inr (by omega))
      · exact Or.inr h

/-- Witness for C6 at a concrete too-short input. -/
theorem claim_c6_witness :
    touch_parse_date_time initTouch ("2007-11-12".toList) 5
      = touch_warn initTouch Err.invalidDateTime :=
  claim_c6_iso_length_separator_validation.1 initTouch ("2007-11-12".toList) 5 (by decide)

/-- C9: when the character after the fractional part is `Z`, the process-wide
timezone context is forced to UTC before epoch resolution (the resolved
seconds are independent of the local offset) and is not reverted afterward
(the final state keeps `TZ=UTC` on success and on failure alike), the cursor
advances past the `Z`, and any remaining characters cause an InvalidFormat
failure; concretely `"2007-11-12T10:15:30Z"` resolves under UTC and
`"2007-11-12T10:15:30Z1"` fails. -/
theorem claim_c9_utc_marker_before_resolution :
    (∀ (t : Touch) (tm : Tm) (r : List Char) (off : Int),
       t.status_code = 0 →
       ((touch_date_time_tail t tm ('Z' :: r) off).tzUtc = true) ∧
       (r ≠ [] →
          touch_date_time_tail t tm ('Z' :: r) off
            = touch_warn { t with tzUtc := true } Err.failedParseDateTime) ∧
       (r = [] →
          (touch_date_time_tail t tm ('Z' :: r) off).time_am0.tv_sec = mktime tm true off ∧
          (touch_date_time_tail t tm ('Z' :: r) off).time_am1.tv_sec = mktime tm true off ∧
          mktime tm true off = mktime tm true 0)) ∧
    ((touch_parse_date_time initTouch ("2007-11-12T10:15:30Z".toList) 12345).tzUtc = true ∧
     (touch_parse_date_time initTouch ("2007-11-12T10:15:30Z".toList) 12345).status_code = 0 ∧
     (touch_parse_date_time initTouch ("2007-11-12T10:15:30Z".toList) 12345).time_am0.tv_sec
       = 1194862530) ∧
    ((touch_parse_date_time initTouch ("2007-11-12T10:15:30Z1".toList) 0).status_code = 1 ∧
     (touch_parse_date_time initTouch ("2007-11-12T10:15:30Z1".toList) 0).errs
       = [Err.failedParseDateTime] ∧
     (touch_parse_date_time initTouch ("2007-11-12T10:15:30Z1".toList) 0).tzUtc = true) := by
  refine ⟨?_, by decide, by decide⟩
  intro t tm r off h
  have hz : touch_parse_frac t ('Z' :: r) = (t, 'Z' :: r) := by
    simp only [touch_parse_frac]
    rw [if_neg (by decide)]
  refine ⟨?_, ?_, ?_⟩
  · simp only [touch_date_time_tail, hz]
    by_cases hr : r = []
    · subst hr
      simp only [h]
      simp only [ne_eq, not_true_eq_false, false_or]
      split
      · contradiction
      · split <;> rfl
    · simp [h, hr, touch_warn]
  · intro hr
    simp only [touch_date_time_tail, hz]
    simp [h, hr]
  · intro hr
    subst hr
    simp only [touch_date_time_tail, hz]
    simp [h, mktime]

/-- Witness for the universally quantified part of C9. -/
theorem claim_c9_witness :
    touch_date_time_tail initTouch ⟨30, 15, 10, 12, 10, 107⟩ ['Z', '1'] 7
      = touch_warn { initTouch with tzUtc := true } Err.failedParseDateTime :=
  ((claim_c9_utc_marker_before_resolution.1 initTouch ⟨30, 15, 10, 12, 10, 107⟩ ['1'] 7
      rfl).2.1) (by decide)

/-- `fracTake` on an all-digit prefix followed by a non-digit boundary copies
the prefix, capped by the remaining digit budget `MAX_FRAC_CHAR_LEN - i`. -/
theorem fracTake_append (ds : List Char) (rest : List Char)
    (hds : ∀ x ∈ ds, x.isDigit = true)
    (hrest : ∀ x ∈ rest.take 1, x.isDigit = false) :
    ∀ i, fracTake i (ds ++ rest) = ds.take (MAX_FRAC_CHAR_LEN - i) := by
  induction ds with
  | nil =>
    intro i
    simp [fracTake_eq_nil i rest hrest]
  | cons d tl ih =>
    intro i
    by_cases hi : i < MAX_FRAC_CHAR_LEN
    · have h1 : MAX_FRAC_CHAR_LEN - i = (MAX_FRAC_CHAR_LEN - (i + 1)) + 1 := by omega
      have hd : d.isDigit = true := hds d (List.mem_cons_self d tl)
      rw [List.cons_append, h1]
      simp only [fracTake, hd, hi, and_self, if_true, List.take_succ_cons, true_and]
      rw [ih (fun x hx => hds x (List.mem_cons_of_mem d hx)) (i + 1)]
    · have h0 : MAX_FRAC_CHAR_LEN - i = 0 := by omega
      have hd : d.isDigit = true := hds d (List.mem_cons_self d tl)
      rw [List.cons_append, h0]
      simp [fracTake, hi]

/-- C10: on a fractional part `sep ++ digits ++ boundary`, `touch_parse_frac`
consumes the separator plus at most `MAX_FRAC_CHAR_LEN - 1` digits, stores
into both nanosecond fields the truncated (round-toward-zero) value of the
consumed literal scaled to nanoseconds, and advances the cursor past exactly
the consumed characters, leaving digits beyond the cap in place; concretely
`"2007-11-12T10:15:30,002"` yields 2000000 nanoseconds and
`"2007-11-12T10:15:30,12345"` yields 123450000 (truncated, not rounded). -/
theorem claim_c10_frac_cap_truncation_cursor :
    (∀ (t : Touch) (c : Char) (ds rest : List Char),
       (c = '.' ∨ c = ',') → ds ≠ [] → (∀ x ∈ ds, x.isDigit = true) →
       (∀ x ∈ rest.take 1, x.isDigit = false) →
       (ds.take (MAX_FRAC_CHAR_LEN - 1)).length = min (MAX_FRAC_CHAR_LEN - 1) ds.length ∧
       touch_parse_frac t (c :: (ds ++ rest)) =
         ({ t with
             time_am0.tv_nsec :=
               (fracNsec (natOfDigits (ds.take (MAX_FRAC_CHAR_LEN - 1)))
                 ((ds.take (MAX_FRAC_CHAR_LEN - 1)).length) : Nat),
             time_am1.tv_nsec :=
               (fracNsec (natOfDigits (ds.take (MAX_FRAC_CHAR_LEN - 1)))
                 ((ds.take (MAX_FRAC_CHAR_LEN - 1)).length) : Nat) },
          ds.drop ((ds.take (MAX_FRAC_CHAR_LEN - 1)).length) ++ rest)) ∧
    ((touch_parse_date_time initTouch ("2007-11-12T10:15:30,002".toList) 0).status_code = 0 ∧
     (touch_parse_date_time initTouch ("2007-11-12T10:15:30,002".toList) 0).time_am0.tv_nsec
       = 2000000 ∧
     (touch_parse_date_time initTouch ("2007-11-12T10:15:30,002".toList) 0).time_am1.tv_nsec
       = 2000000) ∧
    ((touch_parse_date_time initTouch ("2007-11-12T10:15:30,12345".toList) 0).status_code = 0 ∧
     (touch_parse_date_time initTouch ("2007-11-12T10:15:30,12345".toList) 0).time_am0.tv_nsec
       = 123450000) := by
  refine ⟨?_, by decide, by decide⟩
  intro t c ds rest hc hne hds hrest
  have htake : fracTake 1 (ds ++ rest) = ds.take (MAX_FRAC_CHAR_LEN - 1) :=
    fracTake_append ds rest hds hrest 1
  refine ⟨List.length_take _ _, ?_⟩
  simp only [touch_parse_frac]
  rw [if_pos hc, htake]
  have hlen : (ds.take (MAX_FRAC_CHAR_LEN - 1)).length ≤ ds.length := by
    simp [List.length_take]
  cases hcase : ds.take (MAX_FRAC_CHAR_LEN - 1) with
  | nil =>
    rcases (List.take_eq_nil_iff).1 hcase with h | h
    · exact absurd h (by decide)
    · exact absurd h hne
  | cons d tl =>
    rw [← hcase]
    rw [List.drop_append_of_le_length hlen]
    rw [hcase]

/-- Two-decimal-digit rendering of a field value (input construction for the
universally quantified numeric-spec theorems). -/
def r2 (v : Nat) : List Char := [Nat.digitChar (v / 10), Nat.digitChar (v % 10)]

/-- Decimal digit characters are `isdigit`. -/
theorem digitChar_isDigit : ∀ d, d < 10 → (Nat.digitChar d).isDigit = true := by decide

/-- Decimal digit characters are not `isspace`. -/
theorem digitChar_not_space : ∀ d, d < 10 → cIsSpace (Nat.digitChar d) = false := by decide

/-- Converting a decimal digit character back to its value. -/
theorem digitChar_sub48 : ∀ d, d < 10 → (Nat.digitChar d).toNat - 48 = d := by decide

/-- Decimal digit characters are not the dot. -/
theorem digitChar_dot : ∀ d, d < 10 → decide (Nat.digitChar d = '.') = false := by decide

/-- A `strptime` numeric conversion of width 2 on a two-digit rendering:
consumes exactly both digits and returns the value, provided the value is in
range and consuming the second digit is allowed by the `val * 10 ≤ hi`
guard. -/
theorem get_number_r2 (lo hi v : Nat) (rest : List Char)
    (hlo : lo ≤ v) (hhi : v ≤ hi) (hcont : v / 10 * 10 ≤ hi) (h99 : v ≤ 99) :
    get_number lo hi 2 (r2 v ++ rest) = some (v, rest) := by
  have h10 : v / 10 < 10 := by omega
  have hm : v % 10 < 10 := by omega
  have e0 : cIsSpace (Nat.digitChar (v / 10)) = false := digitChar_not_space _ h10
  have e1 : (Nat.digitChar (v / 10)).isDigit = true := digitChar_isDigit _ h10
  have e2 : (Nat.digitChar (v / 10)).toNat - 48 = v / 10 := digitChar_sub48 _ h10
  have e3 : (Nat.digitChar (v % 10)).isDigit = true := digitChar_isDigit _ hm
  have e4 : (Nat.digitChar (v % 10)).toNat - 48 = v % 10 := digitChar_sub48 _ hm
  simp [get_number, r2, gnLoop, e0, e1, e2, e3, e4, hcont, Nat.div_add_mod, hlo, hhi]
  omega

/-- C8: for every valid numeric time spec with a two-digit year (base length
10) the resolved year follows the POSIX century-rollover rule — `tm_year`
corresponds to `1900 + YY` for `YY ∈ [69, 99]` and to `2000 + YY` for
`YY ∈ [00, 68]` — and for base length 12 the year is `CC * 100 + YY` as
given; the other broken-down fields match the positional digits. -/
theorem claim_c8_century_rollover :
    (∀ yy mm dd hh mn : Nat,
       yy ≤ 99 → 1 ≤ mm → mm ≤ 12 → 1 ≤ dd → dd ≤ 31 → hh ≤ 23 → mn ≤ 59 →
       (r2 yy ++ (r2 mm ++ (r2 dd ++ (r2 hh ++ r2 mn)))).length = 10 ∧
       (r2 yy ++ (r2 mm ++ (r2 dd ++ (r2 hh ++ r2 mn)))).any (· = '.') = false ∧
       strptime (time_fmt 10 false) (r2 yy ++ (r2 mm ++ (r2 dd ++ (r2 hh ++ r2 mn))))
         = some ({ tm_sec := 0, tm_min := mn, tm_hour := hh, tm_mday := dd,
                   tm_mon := mm - 1,
                   tm_year := (if 69 ≤ yy then ((yy : Int) + 1900) else ((yy : Int) + 2000))
                     - 1900 }, [])) ∧
    (∀ cc yy mm dd hh mn : Nat,
       cc ≤ 99 → yy ≤ 99 → 1 ≤ mm → mm ≤ 12 → 1 ≤ dd → dd ≤ 31 → hh ≤ 23 → mn ≤ 59 →
       strptime (time_fmt 12 false)
           (r2 cc ++ (r2 yy ++ (r2 mm ++ (r2 dd ++ (r2 hh ++ r2 mn)))))
         = some ({ tm_sec := 0, tm_min := mn, tm_hour := hh, tm_mday := dd,
                   tm_mon := mm - 1,
                   tm_year := ((cc : Int) * 100 + (yy : Int)) - 1900 }, [])) := by
  constructor
  · intro yy mm dd hh mn h99 hm1 hm2 hd1 hd2 hh23 hmn
    have ey : ∀ rest, get_number 0 99 2 (r2 yy ++ rest) = some (yy, rest) :=
      fun rest => get_number_r2 0 99 yy rest (Nat.zero_le _) h99 (by omega) h99
    have em : ∀ rest, get_number 1 12 2 (r2 mm ++ rest) = some (mm, rest) :=
      fun rest => get_number_r2 1 12 mm rest hm1 hm2 (by omega) (by omega)
    have ed : ∀ rest, get_number 1 31 2 (r2 dd ++ rest) = some (dd, rest) :=
      fun rest => get_number_r2 1 31 dd rest hd1 hd2 (by omega) (by omega)
    have eh : ∀ rest, get_number 0 23 2 (r2 hh ++ rest) = some (hh, rest) :=
      fun rest => get_number_r2 0 23 hh rest (Nat.zero_le _) hh23 (by omega) (by omega)
    have emn : get_number 0 59 2 (r2 mn) = some (mn, []) := by
      have := get_number_r2 0 59 mn [] (Nat.zero_le _) hmn (by omega) (by omega)
      simpa using this
    refine ⟨by simp [r2], ?_, ?_⟩
    · have a1 := digitChar_dot (yy / 10) (by omega)
      have a2 := digitChar_dot (yy % 10) (by omega)
      have a3 := digitChar_dot (mm / 10) (by omega)
      have a4 := digitChar_dot (mm % 10) (by omega)
      have a5 := digitChar_dot (dd / 10) (by omega)
      have a6 := digitChar_dot (dd % 10) (by omega)
      have a7 := digitChar_dot (hh / 10) (by omega)
      have a8 := digitChar_dot (hh % 10) (by omega)
      have a9 := digitChar_dot (mn / 10) (by omega)
      have a10 := digitChar_dot (mn % 10) (by omega)
      simp [r2, a1, a2, a3, a4, a5, a6, a7, a8, a9, a10]
    · have hfmt : time_fmt 10 false
          = [Conv.convy, Conv.convm, Conv.convd, Conv.convH, Conv.convM] := rfl
      rw [hfmt]
      have hyear : (if yy ≤ 68 then ((yy : Int) + 100) else (yy : Int))
          = (if 69 ≤ yy then ((yy : Int) + 1900) else ((yy : Int) + 2000)) - 1900 := by
        split_ifs <;> omega
      simp only [strptime, strptime_run, ey, em, ed, eh, emn, strptime_finalize, tmZero]
      rw [hyear]
  · intro cc yy mm dd hh mn hcc h99 hm1 hm2 hd1 hd2 hh23 hmn
    have ec : ∀ rest, get_number 0 99 2 (r2 cc ++ rest) = some (cc, rest) :=
      fun rest => get_number_r2 0 99 cc rest (Nat.zero_le _) hcc (by omega) hcc
    have ey : ∀ rest, get_number 0 99 2 (r2 yy ++ rest) = some (yy, rest) :=
      fun rest => get_number_r2 0 99 yy rest (Nat.zero_le _) h99 (by omega) h99
    have em : ∀ rest, get_number 1 12 2 (r2 mm ++ rest) = some (mm, rest) :=
      fun rest => get_number_r2 1 12 mm rest hm1 hm2 (by omega) (by omega)
    have ed : ∀ rest, get_number 1 31 2 (r2 dd ++ rest) = some (dd, rest) :=
      fun rest => get_number_r2 1 31 dd rest hd1 hd2 (by omega) (by omega)
    have eh : ∀ rest, get_number 0 23 2 (r2 hh ++ rest) = some (hh, rest) :=
      fun rest => get_number_r2 0 23 hh rest (Nat.zero_le _) hh23 (by omega) (by omega)
    have emn : get_number 0 59 2 (r2 mn) = some (mn, []) := by
      have := get_number_r2 0 59 mn [] (Nat.zero_le _) hmn (by omega) (by omega)
      simpa using this
    have hfmt : time_fmt 12 false
        = [Conv.convC, Conv.convy, Conv.convm, Conv.convd, Conv.convH, Conv.convM] := rfl
    rw [hfmt]
    have hyear : ((yy % 100 : Nat) : Int) + ((cc : Int) - 19) * 100
        = ((cc : Int) * 100 + (yy : Int)) - 1900 := by
      have : yy % 100 = yy := Nat.mod_eq_of_lt (by omega)
      rw [this]
      ring
    simp only [strptime, strptime_run, ec, ey, em, ed, eh, emn, strptime_finalize, tmZero]
    rw [hyear]

/-- Witness for C8: `"6801010000"` resolves to year 2068 and `"6901010000"`
to year 1969. -/
theorem claim_c8_witness :
    strptime (time_fmt 10 false) (r2 68 ++ (r2 1 ++ (r2 1 ++ (r2 0 ++ r2 0))))
      = some ({ tm_sec := 0, tm_min := 0, tm_hour := 0, tm_mday := 1, tm_mon := 0,
                tm_year := (if 69 ≤ 68 then ((68 : Int) + 1900) else ((68 : Int) + 2000))
                  - 1900 }, []) :=
  ((claim_c8_century_rollover.1 68 1 1 0 0 (by decide) (by decide) (by decide) (by decide)
      (by decide) (by decide) (by decide)).2.2)

/-- Witness for the universally quantified part of C10. -/
theorem claim_c10_witness :
    touch_parse_frac initTouch (',' :: (("002".toList) ++ ['Z'])) =
      ({ initTouch with
          time_am0.tv_nsec :=
            (fracNsec (natOfDigits (("002".toList).take (MAX_FRAC_CHAR_LEN - 1)))
              ((("002".toList).take (MAX_FRAC_CHAR_LEN - 1)).length) : Nat),
          time_am1.tv_nsec :=
            (fracNsec (natOfDigits (("002".toList).take (MAX_FRAC_CHAR_LEN - 1)))
              ((("002".toList).take (MAX_FRAC_CHAR_LEN - 1)).length) : Nat) },
       ("002".toList).drop ((("002".toList).take (MAX_FRAC_CHAR_LEN - 1)).length) ++ ['Z']) :=
  ((claim_c10_frac_cap_truncation_cursor.1 initTouch ',' ("002".toList) ['Z']
      (Or.inr rfl) (by decide) (by decide) (by decide)).2)
